import Mathlib

/-!
Shallow embedding of the formula layer of the crop-model-figure repository.

Each plotting script defines one pure algebraic function; those functions are
embedded here over the rationals (the scripts compute with real-valued
arithmetic; no claim depends on floating-point rounding), except for the
Q10 temperature response, which uses a real exponent and is embedded over ℝ.
NumPy's element-wise product with 1-D broadcasting, used by
`maintenance_respiration`, is embedded as `npBroadcastMul`; arithmetic faults
(division by zero) are modelled by `Except`-valued variants of the two
functions that divide by user-supplied constants.
-/

namespace CropModel

/-- Embeds `growth_respiration` of src/plot_growth_respiration.py:
`return m * GTW`. -/
def growth_respiration (GTW m : ℚ) : ℚ := m * GTW

/-- Embeds `net_photosynthesis` of src/plot_net_photosynthesis.py:
`return Vc - 0.5 * Vo - Rd`. -/
def net_photosynthesis (Vc Vo Rd : ℚ) : ℚ := Vc - 0.5 * Vo - Rd

/-- Embeds `nitrogen_respiration_coefficient` of src/plot_nitrogen_respiration.py:
`return r_ref * (Ni / N_ref)`. -/
def nitrogen_respiration_coefficient (Ni r_ref N_ref : ℚ) : ℚ :=
  r_ref * (Ni / N_ref)

/-- Embeds `rubisco_rp` of src/plot_rubisco_rp.py:
`numerator = (O2 / Ks)`, `denominator = (CO2 / Kc) + (1 + O2 / Ko)`,
`return Rpmax * numerator / denominator`. -/
def rubisco_rp (CO2 O2 Rpmax Ks Kc Ko : ℚ) : ℚ :=
  Rpmax * (O2 / Ks) / (CO2 / Kc + (1 + O2 / Ko))

/-- Embeds `temperature_respiration` of src/plot_temperature_respiration.py:
`return Rm0 * Q10**((T - T0) / 10)`. The exponent is a real number, so the
Python `**` is embedded as the real power `Real.rpow`. -/
noncomputable def temperature_respiration (T Rm0 Q10 T0 : ℝ) : ℝ :=
  Rm0 * Q10 ^ ((T - T0) / 10)

/-- Embeds NumPy element-wise multiplication of two 1-D arrays, including
NumPy's broadcasting rule for 1-D shapes: shapes `(n,)` and `(m,)` are
compatible iff `n = m` or `n = 1` or `m = 1`; a length-1 operand is
stretched to the other operand's length. Incompatible shapes raise a
broadcast error, modelled as `none`. -/
def npBroadcastMul (a b : List ℚ) : Option (List ℚ) :=
  if a.length = b.length then some (List.zipWith (fun x y => x * y) a b)
  else if a.length = 1 then some (b.map (fun y => a.headI * y))
  else if b.length = 1 then some (a.map (fun x => x * b.headI))
  else none

/-- Embeds `maintenance_respiration` of src/plot_maintenance_respiration.py:
`return np.sum(np.array(organ_weights) * np.array(organ_coeffs))`. The
element-wise product follows NumPy broadcasting (`npBroadcastMul`); a raised
broadcast error is `none`. -/
def maintenance_respiration (organ_weights organ_coeffs : List ℚ) : Option ℚ :=
  (npBroadcastMul organ_weights organ_coeffs).map List.sum

/-- Models scalar division that faults on a zero divisor, the arithmetic
fault channel of the host language (`ZeroDivisionError` for scalars,
a non-finite value under NumPy; either way the fault is produced at the
division and not handled by the formula functions). -/
def qdiv (x y : ℚ) : Except String ℚ :=
  if y = 0 then Except.error "ZeroDivisionError" else Except.ok (x / y)

/-- Fault-explicit embedding of `nitrogen_respiration_coefficient`:
the body `r_ref * (Ni / N_ref)` performs one division whose fault, if any,
passes through to the caller unhandled (the error branch re-raises the
fault unchanged; nothing is caught or translated). -/
def nitrogen_respiration_coefficientE (Ni r_ref N_ref : ℚ) : Except String ℚ :=
  match qdiv Ni N_ref with
  | Except.error e => Except.error e
  | Except.ok q => Except.ok (r_ref * q)

/-- Fault-explicit embedding of `rubisco_rp`: the divisions of the body are
performed in source order (`O2 / Ks`, then `CO2 / Kc`, then `O2 / Ko`, then
the final division by the denominator) and any fault passes through to the
caller unhandled (every error branch re-raises the fault unchanged). -/
def rubisco_rpE (CO2 O2 Rpmax Ks Kc Ko : ℚ) : Except String ℚ :=
  match qdiv O2 Ks with
  | Except.error e => Except.error e
  | Except.ok numerator =>
    match qdiv CO2 Kc with
    | Except.error e => Except.error e
    | Except.ok a =>
      match qdiv O2 Ko with
      | Except.error e => Except.error e
      | Except.ok b => qdiv (Rpmax * numerator) (a + (1 + b))

/-- Dot product of two rational sequences read off by index, the target
shape of the maintenance-respiration claims. -/
def dotSum (W r : List ℚ) (n : ℕ) : ℚ :=
  ∑ i ∈ Finset.range n, W.getD i 0 * r.getD i 0

lemma zipWith_mul_sum_eq_dotSum :
    ∀ (n : ℕ) (W r : List ℚ), W.length = n → r.length = n →
    (List.zipWith (fun x y => x * y) W r).sum = dotSum W r n := by
  intro n
  induction n with
  | zero =>
    intro W r hW hr
    rw [List.length_eq_zero] at hW hr
    subst hW; subst hr
    simp [dotSum]
  | succ m ih =>
    intro W r hW hr
    rcases W with _ | ⟨x, xs⟩
    · simp at hW
    rcases r with _ | ⟨y, ys⟩
    · simp at hr
    simp only [List.length_cons, Nat.succ.injEq] at hW hr
    simp only [List.zipWith_cons_cons, List.sum_cons, dotSum,
      Finset.sum_range_succ']
    rw [ih xs ys hW hr]
    simp [dotSum, add_comm]

/-- C3: for equal-length weight and coefficient sequences of length n,
`maintenance_respiration` is the dot product `∑ i, W_i * r_i`; on two empty
sequences it returns 0, and on `[100,100,100]`, `[0.015,0.010,0.012]` it
returns 3.7. -/
theorem C3_maintenance_respiration_dot_product :
    (∀ (n : ℕ) (W r : List ℚ), W.length = n → r.length = n →
      maintenance_respiration W r = some (dotSum W r n)) ∧
    maintenance_respiration [] [] = some 0 ∧
    maintenance_respiration [100, 100, 100] [0.015, 0.010, 0.012] = some 3.7 := by
  refine ⟨?_, ?_, ?_⟩
  · intro n W r hW hr
    unfold maintenance_respiration npBroadcastMul
    rw [if_pos (hW.trans hr.symm)]
    simp [zipWith_mul_sum_eq_dotSum n W r hW hr]
  · rfl
  · norm_num [maintenance_respiration, npBroadcastMul]

/-- Witness for C3: the universally quantified dot-product clause applied at
a concrete equal-length pair. -/
theorem C3_maintenance_respiration_dot_product_witness :
    maintenance_respiration [2, 3] [5, 7] = some (dotSum [2, 3] [5, 7] 2) :=
  C3_maintenance_respiration_dot_product.1 2 [2, 3] [5, 7] rfl rfl

/-- C4: for non-negative GTW and m, `growth_respiration GTW m = m * GTW`,
it vanishes at GTW = 0, it is homogeneous in GTW, and
`growth_respiration 10 0.25 = 2.5`. -/
theorem C4_growth_respiration_linear (GTW m k : ℚ)
    (hG : 0 ≤ GTW) (hm : 0 ≤ m) :
    growth_respiration GTW m = m * GTW ∧
    growth_respiration 0 m = 0 ∧
    growth_respiration (k * GTW) m = k * growth_respiration GTW m ∧
    growth_respiration 10 0.25 = 2.5 := by
  refine ⟨rfl, ?_, ?_, ?_⟩
  · simp [growth_respiration]
  · unfold growth_respiration; ring
  · norm_num [growth_respiration]

/-- Witness for C4 at GTW = 1, m = 1, k = 2. -/
theorem C4_growth_respiration_linear_witness :
    growth_respiration (2 * 1) 1 = 2 * growth_respiration 1 1 :=
  (C4_growth_respiration_linear 1 1 2 (by norm_num) (by norm_num)).2.2.1

/-- C6: `net_photosynthesis Vc Vo Rd = Vc - 0.5*Vo - Rd`; it equals Vc when
Vo = Rd = 0; it is negative whenever `0.5*Vo + Rd > Vc` (no clamping); and
`net_photosynthesis 80 40 2 = 58`. -/
theorem C6_net_photosynthesis_linear (Vc Vo Rd : ℚ) :
    net_photosynthesis Vc Vo Rd = Vc - 0.5 * Vo - Rd ∧
    net_photosynthesis Vc 0 0 = Vc ∧
    (Vc < 0.5 * Vo + Rd → net_photosynthesis Vc Vo Rd < 0) ∧
    net_photosynthesis 80 40 2 = 58 := by
  refine ⟨rfl, ?_, fun h => ?_, ?_⟩
  · simp [net_photosynthesis]
  · unfold net_photosynthesis; linarith
  · norm_num [net_photosynthesis]

/-- Witness for C6: the negative-result clause at Vc = 0, Vo = 2, Rd = 1. -/
theorem C6_net_photosynthesis_linear_witness :
    net_photosynthesis 0 2 1 < 0 :=
  (C6_net_photosynthesis_linear 0 2 1).2.2.1 (by norm_num)

/-- C7: for N_ref ≠ 0, `nitrogen_respiration_coefficient Ni r_ref N_ref =
r_ref * (Ni / N_ref)`; it equals r_ref at the reference point; and for
r_ref ≠ 0 the relative change is Ni / N_ref. -/
theorem C7_nitrogen_respiration_coefficient_linear (Ni r_ref N_ref : ℚ)
    (h : N_ref ≠ 0) :
    nitrogen_respiration_coefficient Ni r_ref N_ref = r_ref * (Ni / N_ref) ∧
    nitrogen_respiration_coefficient N_ref r_ref N_ref = r_ref ∧
    (r_ref ≠ 0 →
      nitrogen_respiration_coefficient Ni r_ref N_ref / r_ref = Ni / N_ref) := by
  refine ⟨rfl, ?_, fun hr => ?_⟩
  · unfold nitrogen_respiration_coefficient
    rw [div_self h, mul_one]
  · unfold nitrogen_respiration_coefficient
    field_simp
    ring

/-- Witness for C7 at Ni = 2, r_ref = 3, N_ref = 4. -/
theorem C7_nitrogen_respiration_coefficient_linear_witness :
    nitrogen_respiration_coefficient 4 3 4 = 3 :=
  (C7_nitrogen_respiration_coefficient_linear 4 3 4 (by norm_num)).2.1

/-- C1: for fixed strictly positive O2, Rpmax, Ks, Kc, Ko, `rubisco_rp` is
strictly decreasing in CO2 on CO2 ≥ 0, and at CO2 = 0 it equals the finite,
strictly positive value `Rpmax * (O2/Ks) / (1 + O2/Ko)`. -/
theorem C1_rubisco_rp_decreasing_in_CO2 (O2 Rpmax Ks Kc Ko : ℚ)
    (hO2 : 0 < O2) (hRp : 0 < Rpmax) (hKs : 0 < Ks) (hKc : 0 < Kc)
    (hKo : 0 < Ko) :
    (∀ c1 c2 : ℚ, 0 ≤ c1 → c1 < c2 →
      rubisco_rp c2 O2 Rpmax Ks Kc Ko < rubisco_rp c1 O2 Rpmax Ks Kc Ko) ∧
    rubisco_rp 0 O2 Rpmax Ks Kc Ko = Rpmax * (O2 / Ks) / (1 + O2 / Ko) ∧
    0 < rubisco_rp 0 O2 Rpmax Ks Kc Ko := by
  have hnum : 0 < Rpmax * (O2 / Ks) := mul_pos hRp (div_pos hO2 hKs)
  have hOKo : 0 < O2 / Ko := div_pos hO2 hKo
  have hden : ∀ c : ℚ, 0 ≤ c → 0 < c / Kc + (1 + O2 / Ko) := by
    intro c hc
    have h1 : 0 ≤ c / Kc := div_nonneg hc hKc.le
    linarith
  have h0 : rubisco_rp 0 O2 Rpmax Ks Kc Ko =
      Rpmax * (O2 / Ks) / (1 + O2 / Ko) := by
    unfold rubisco_rp
    rw [zero_div, zero_add]
  refine ⟨?_, h0, ?_⟩
  · intro c1 c2 hc1 h12
    unfold rubisco_rp
    apply div_lt_div_of_pos_left hnum (hden c1 hc1)
    have : c1 / Kc < c2 / Kc := by
      rw [div_lt_div_iff hKc hKc]
      exact mul_lt_mul_of_pos_right h12 hKc
    linarith
  · rw [h0]
    exact div_pos hnum (by linarith)

/-- C10: for fixed CO2 ≥ 0 and strictly positive Rpmax, Ks, Kc, Ko,
`rubisco_rp` is strictly increasing in O2 on O2 ≥ 0, and at O2 = 0 it is
exactly 0 rather than an error. -/
theorem C10_rubisco_rp_increasing_in_O2 (CO2 Rpmax Ks Kc Ko : ℚ)
    (hC : 0 ≤ CO2) (hRp : 0 < Rpmax) (hKs : 0 < Ks) (hKc : 0 < Kc)
    (hKo : 0 < Ko) :
    (∀ o1 o2 : ℚ, 0 ≤ o1 → o1 < o2 →
      rubisco_rp CO2 o1 Rpmax Ks Kc Ko < rubisco_rp CO2 o2 Rpmax Ks Kc Ko) ∧
    rubisco_rp CO2 0 Rpmax Ks Kc Ko = 0 := by
  have hCKc : 0 ≤ CO2 / Kc := div_nonneg hC hKc.le
  constructor
  · intro o1 o2 ho1 h12
    have ho2 : 0 ≤ o2 := le_trans ho1 h12.le
    unfold rubisco_rp
    have hd1 : 0 < CO2 / Kc + (1 + o1 / Ko) := by
      have := div_nonneg ho1 hKo.le; linarith
    have hd2 : 0 < CO2 / Kc + (1 + o2 / Ko) := by
      have := div_nonneg ho2 hKo.le; linarith
    rw [div_lt_div_iff hd1 hd2]
    have hKs' : 0 < Ks⁻¹ := inv_pos.mpr hKs
    have key : 0 < Rpmax * Ks⁻¹ * (CO2 / Kc + 1) * (o2 - o1) :=
      mul_pos (mul_pos (mul_pos hRp hKs') (by linarith)) (sub_pos.mpr h12)
    rw [div_eq_mul_inv o1 Ks, div_eq_mul_inv o2 Ks,
      div_eq_mul_inv o1 Ko, div_eq_mul_inv o2 Ko]
    nlinarith [key]
  · unfold rubisco_rp
    norm_num

/-- Witness for C1: strict decrease and the positive CO2 = 0 value at
O2 = 210, Rpmax = 20, Ks = 5/2, Kc = 40, Ko = 25, CO2 from 0 to 100. -/
theorem C1_rubisco_rp_decreasing_in_CO2_witness :
    rubisco_rp 100 210 20 (5/2) 40 25 < rubisco_rp 0 210 20 (5/2) 40 25 :=
  (C1_rubisco_rp_decreasing_in_CO2 210 20 (5/2) 40 25 (by norm_num)
    (by norm_num) (by norm_num) (by norm_num) (by norm_num)).1
    0 100 (by norm_num) (by norm_num)

/-- Witness for C10: strict increase in O2 at CO2 = 400 between O2 = 0 and
O2 = 210. -/
theorem C10_rubisco_rp_increasing_in_O2_witness :
    rubisco_rp 400 0 20 (5/2) 40 25 < rubisco_rp 400 210 20 (5/2) 40 25 :=
  (C10_rubisco_rp_increasing_in_O2 400 20 (5/2) 40 25 (by norm_num)
    (by norm_num) (by norm_num) (by norm_num) (by norm_num)).1
    0 210 (by norm_num) (by norm_num)

/-- Counterexample to C2 as stated: the sequences `[100]` and
`[0.015, 0.010]` have different lengths, yet `maintenance_respiration`
returns the numeric result 2.5 (NumPy broadcasting stretches the length-1
operand) instead of failing. -/
theorem C2_maintenance_respiration_counterexample :
    List.length [(100 : ℚ)] ≠ List.length [(0.015 : ℚ), 0.010] ∧
    maintenance_respiration [100] [0.015, 0.010] = some 2.5 := by
  constructor
  · simp
  · norm_num [maintenance_respiration, npBroadcastMul]

/-- C2 amended: with sequences of different lengths, `maintenance_respiration`
fails fast with a shape-mismatch error and attempts no partial computation
whenever neither length is 1; but when either sequence has length 1, NumPy
broadcasting stretches it and a numeric result is returned. -/
theorem C2_maintenance_respiration_shape_mismatch (W r : List ℚ)
    (hne : W.length ≠ r.length) :
    (W.length ≠ 1 → r.length ≠ 1 → maintenance_respiration W r = none) ∧
    (W.length = 1 → ∃ v : ℚ, maintenance_respiration W r = some v) ∧
    (r.length = 1 → ∃ v : ℚ, maintenance_respiration W r = some v) := by
  refine ⟨fun h1 h2 => ?_, fun h1 => ?_, fun h2 => ?_⟩
  · unfold maintenance_respiration npBroadcastMul
    rw [if_neg hne, if_neg h1, if_neg h2]
    rfl
  · unfold maintenance_respiration npBroadcastMul
    rw [if_neg hne, if_pos h1]
    exact ⟨_, rfl⟩
  · have hW1 : W.length ≠ 1 := fun h => hne (h.trans h2.symm)
    unfold maintenance_respiration npBroadcastMul
    rw [if_neg hne, if_neg hW1, if_pos h2]
    exact ⟨_, rfl⟩

/-- Witness for the amended C2: lengths 3 and 2 (neither equal to 1) produce
a shape-mismatch error. -/
theorem C2_maintenance_respiration_shape_mismatch_witness :
    maintenance_respiration [1, 2, 3] [4, 5] = none :=
  (C2_maintenance_respiration_shape_mismatch [1, 2, 3] [4, 5]
    (by simp)).1 (by simp) (by simp)

/-- C9: for equal-length sequences the two positional arguments of
`maintenance_respiration` are interchangeable: swapping weights and
coefficients yields the same result, not an error. -/
theorem C9_maintenance_respiration_commutative (W r : List ℚ)
    (h : W.length = r.length) :
    maintenance_respiration W r = maintenance_respiration r W := by
  unfold maintenance_respiration npBroadcastMul
  rw [if_pos h, if_pos h.symm, List.zipWith_comm_of_comm _ mul_comm]

/-- Witness for C9 at the pair `[100, 200]`, `[0.5, 0.25]`. -/
theorem C9_maintenance_respiration_commutative_witness :
    maintenance_respiration [100, 200] [0.5, 0.25] =
      maintenance_respiration [0.5, 0.25] [100, 200] :=
  C9_maintenance_respiration_commutative [100, 200] [0.5, 0.25] (by simp)

/-- Counterexample to C5's concrete scenario: at T = 35, Rm0 = 5, Q10 = 2,
T0 = 25 the exponent is (35 - 25)/10 = 1, so the result is 5 * 2 = 10,
not the claimed 20. -/
theorem C5_temperature_respiration_counterexample :
    temperature_respiration 35 5 2 25 = 10 ∧
    temperature_respiration 35 5 2 25 ≠ 20 := by
  have h : temperature_respiration 35 5 2 25 = 10 := by
    unfold temperature_respiration
    rw [show ((35 : ℝ) - 25) / 10 = 1 by norm_num, Real.rpow_one]
    norm_num
  exact ⟨h, by rw [h]; norm_num⟩

/-- C5 amended: `temperature_respiration` computes `Rm0 * Q10^((T - T0)/10)`;
it equals Rm0 at the reference temperature, one Q10 step (T0 + 10) scales by
exactly Q10, the result is strictly positive for Rm0 > 0 and Q10 > 0, and
the concrete scenario evaluates to 10.0 (not 20.0). -/
theorem C5_temperature_respiration_q10 (T Rm0 Q10 T0 : ℝ) :
    temperature_respiration T Rm0 Q10 T0 = Rm0 * Q10 ^ ((T - T0) / 10) ∧
    temperature_respiration T0 Rm0 Q10 T0 = Rm0 ∧
    temperature_respiration (T0 + 10) Rm0 Q10 T0 = Rm0 * Q10 ∧
    (0 < Rm0 → 0 < Q10 → 0 < temperature_respiration T Rm0 Q10 T0) ∧
    temperature_respiration 35 5 2 25 = 10 := by
  refine ⟨rfl, ?_, ?_, fun hR hQ => ?_, ?_⟩
  · unfold temperature_respiration
    rw [sub_self, zero_div, Real.rpow_zero, mul_one]
  · unfold temperature_respiration
    rw [show (T0 + 10 - T0) / 10 = (1 : ℝ) by ring, Real.rpow_one]
  · unfold temperature_respiration
    exact mul_pos hR (Real.rpow_pos_of_pos hQ _)
  · unfold temperature_respiration
    rw [show ((35 : ℝ) - 25) / 10 = 1 by norm_num, Real.rpow_one]
    norm_num

/-- Witness for the amended C5: strict positivity at T = 30, Rm0 = 5,
Q10 = 2, T0 = 25. -/
theorem C5_temperature_respiration_q10_witness :
    0 < temperature_respiration 30 5 2 25 :=
  (C5_temperature_respiration_q10 30 5 2 25).2.2.2.1 (by norm_num)
    (by norm_num)

/-- C8: a zero divisor constant is unguarded. With N_ref = 0 the nitrogen
coefficient faults at its division; with Ks, Kc, or Ko equal to zero the
Rubisco function faults at the corresponding division; in all cases the
arithmetic fault passes through to the caller untranslated, and with a
non-zero divisor the nitrogen function returns the plain value, showing no
guard is performed. -/
theorem C8_division_by_zero_unhandled (Ni r_ref CO2 O2 Rpmax Ks Kc Ko : ℚ) :
    nitrogen_respiration_coefficientE Ni r_ref 0 =
      Except.error "ZeroDivisionError" ∧
    (Ks = 0 → rubisco_rpE CO2 O2 Rpmax Ks Kc Ko =
      Except.error "ZeroDivisionError") ∧
    (Kc = 0 → rubisco_rpE CO2 O2 Rpmax Ks Kc Ko =
      Except.error "ZeroDivisionError") ∧
    (Ko = 0 → rubisco_rpE CO2 O2 Rpmax Ks Kc Ko =
      Except.error "ZeroDivisionError") ∧
    (∀ N_ref : ℚ, N_ref ≠ 0 →
      nitrogen_respiration_coefficientE Ni r_ref N_ref =
        Except.ok (nitrogen_respiration_coefficient Ni r_ref N_ref)) := by
  refine ⟨?_, fun hs => ?_, fun hc => ?_, fun ho => ?_, fun N_ref hn => ?_⟩
  · simp [nitrogen_respiration_coefficientE, qdiv]
  · simp [rubisco_rpE, qdiv, hs]
  · subst hc
    by_cases hs : Ks = 0 <;> simp [rubisco_rpE, qdiv, hs]
  · subst ho
    by_cases hs : Ks = 0 <;> by_cases hc : Kc = 0 <;>
      simp [rubisco_rpE, qdiv, hs, hc]
  · simp [nitrogen_respiration_coefficientE, qdiv, hn,
      nitrogen_respiration_coefficient]

/-- Witness for C8: the Ks = 0 fault at the usual Rubisco parameters. -/
theorem C8_division_by_zero_unhandled_witness :
    rubisco_rpE 400 210 20 0 40 25 = Except.error "ZeroDivisionError" :=
  (C8_division_by_zero_unhandled 1 1 400 210 20 0 40 25).2.1 rfl

end CropModel
